import Mathlib

/-!
Shallow embedding of the synchronization engine of the discord-linear-bot
repository: the SQLite-backed mapping store (`src/db.rs`), the forward sync
`sync_discord_to_linear` (`src/sync/discord_to_linear.rs`), the backfill
orchestrator (`src/sync/backfill.rs`), the reverse syncs
(`src/sync/linear_to_discord.rs`) and the poller loop (`src/linear/poller.rs`).

Databases are modelled as in-memory lists of rows; every outbound network
call (Discord fetch/post, Linear GraphQL, attachment upload) is resolved by
an explicit environment so that failures of any individual call can be
injected.  Observable side effects (messages posted, issues created, sleeps,
forward-sync invocations) are accumulated in an effect trace.
-/

namespace Bot

/-- Row of the `sync_mappings` table (`src/db.rs`, struct `SyncMapping`). -/
structure SyncMapping where
  id : Nat
  discord_thread_id : String
  linear_issue_id : String
  linear_identifier : String
  channel_type : String
  created_at : String
deriving Repr, DecidableEq

/-- Row of the `linear_status_cache` table (`src/db.rs`, struct `LinearStatusCache`). -/
structure LinearStatusCache where
  linear_issue_id : String
  status_name : String
  updated_at : String
deriving Repr, DecidableEq

/-- Row of the `synced_comments` table (`src/db.rs`, `insert_synced_comment`). -/
structure SyncedComment where
  linear_comment_id : String
  linear_issue_id : String
  discord_message_id : String
deriving Repr, DecidableEq

/-- Row of the `backfill_state` table (`src/db.rs`, struct `BackfillState`). -/
structure BackfillState where
  channel_id : String
  completed : Bool
  last_thread_id : Option String
  updated_at : String
deriving Repr, DecidableEq

/-- The persistent store: the four tables of the SQLite database. -/
structure Db where
  sync_mappings : List SyncMapping
  linear_status_cache : List LinearStatusCache
  synced_comments : List SyncedComment
  backfill_state : List BackfillState
deriving Repr, DecidableEq

/-- `db::get_mapping_by_discord_thread`: `SELECT ... WHERE discord_thread_id = ?`. -/
def get_mapping_by_discord_thread (db : Db) (discord_thread_id : String) : Option SyncMapping :=
  db.sync_mappings.find? (fun m => m.discord_thread_id == discord_thread_id)

/-- `db::get_mapping_by_linear_issue`: `SELECT ... WHERE linear_issue_id = ?`. -/
def get_mapping_by_linear_issue (db : Db) (linear_issue_id : String) : Option SyncMapping :=
  db.sync_mappings.find? (fun m => m.linear_issue_id == linear_issue_id)

/-- `db::create_mapping`: `INSERT INTO sync_mappings ...`.  The autoincrement
row id is modelled as the current row count; `created_at` (filled by SQLite)
is modelled as the empty string. -/
def create_mapping (db : Db)
    (discord_thread_id linear_issue_id linear_identifier channel_type : String) : Db :=
  { db with sync_mappings := db.sync_mappings ++
      [{ id := db.sync_mappings.length
         discord_thread_id := discord_thread_id
         linear_issue_id := linear_issue_id
         linear_identifier := linear_identifier
         channel_type := channel_type
         created_at := "" }] }

/-- `db::get_cached_status`: `SELECT status_name FROM linear_status_cache WHERE ...`. -/
def get_cached_status (db : Db) (linear_issue_id : String) : Option String :=
  (db.linear_status_cache.find? (fun r => r.linear_issue_id == linear_issue_id)).map
    (fun r => r.status_name)

/-- `db::upsert_cached_status`: `INSERT ... ON CONFLICT(linear_issue_id) DO UPDATE`. -/
def upsert_cached_status (db : Db) (linear_issue_id status_name : String) : Db :=
  if db.linear_status_cache.any (fun r => r.linear_issue_id == linear_issue_id) then
    { db with linear_status_cache := db.linear_status_cache.map (fun r =>
        if r.linear_issue_id == linear_issue_id then
          { r with status_name := status_name, updated_at := "" }
        else r) }
  else
    { db with linear_status_cache :=
        db.linear_status_cache ++ [⟨linear_issue_id, status_name, ""⟩] }

/-- `db::is_comment_synced`: `SELECT 1 FROM synced_comments WHERE linear_comment_id = ?`. -/
def is_comment_synced (db : Db) (linear_comment_id : String) : Bool :=
  db.synced_comments.any (fun c => c.linear_comment_id == linear_comment_id)

/-- `db::insert_synced_comment`: `INSERT INTO synced_comments ...`. -/
def insert_synced_comment (db : Db)
    (linear_comment_id linear_issue_id discord_message_id : String) : Db :=
  { db with synced_comments := db.synced_comments ++
      [⟨linear_comment_id, linear_issue_id, discord_message_id⟩] }

/-- `db::get_backfill_state`: `SELECT ... FROM backfill_state WHERE channel_id = ?`. -/
def get_backfill_state (db : Db) (channel_id : String) : Option BackfillState :=
  db.backfill_state.find? (fun s => s.channel_id == channel_id)

/-- `db::upsert_backfill_state`: `INSERT ... ON CONFLICT(channel_id) DO UPDATE`. -/
def upsert_backfill_state (db : Db) (channel_id : String) (completed : Bool)
    (last_thread_id : Option String) : Db :=
  if db.backfill_state.any (fun s => s.channel_id == channel_id) then
    { db with backfill_state := db.backfill_state.map (fun s =>
        if s.channel_id == channel_id then ⟨channel_id, completed, last_thread_id, ""⟩ else s) }
  else
    { db with backfill_state := db.backfill_state ++ [⟨channel_id, completed, last_thread_id, ""⟩] }

/-- `config::ChannelConfig`; `tag_label_map` (a `HashMap`) is modelled as an
association list queried with `List.lookup`. -/
structure ChannelConfig where
  discord_channel_id : Nat
  guild_id : Nat
  channel_type : String
  linear_team_id : String
  linear_label_id : String
  tag_label_map : List (String × String)
deriving Repr, DecidableEq

/-- The channel list of `config::Config` (the only part the sync engine reads). -/
structure Config where
  channels : List ChannelConfig
deriving Repr, DecidableEq

/-- `Config::channel_config`: first channel with the given Discord channel id. -/
def Config.channel_config (config : Config) (discord_channel_id : Nat) : Option ChannelConfig :=
  config.channels.find? (fun c => c.discord_channel_id == discord_channel_id)

/-- A Discord message attachment (serenity `Attachment`): url and filename. -/
structure Attachment where
  url : String
  filename : String
deriving Repr, DecidableEq

/-- A Discord message (serenity `Message`): the fields forward sync reads. -/
structure Message where
  content : String
  attachments : List Attachment
deriving Repr, DecidableEq

/-- A Discord thread (serenity `GuildChannel`): the fields the sync engine reads.
Ids are `u64`, modelled as `Nat`. -/
structure GuildChannel where
  id : Nat
  parent_id : Option Nat
  applied_tags : List Nat
  name : String
deriving Repr, DecidableEq

/-- `linear::client::LinearIssue` as returned by `create_issue`. -/
structure LinearIssue where
  id : String
  identifier : String
  title : String
  url : String
deriving Repr, DecidableEq

/-- `linear::client::LinearIssueStatus` as returned by `get_updated_issues`. -/
structure LinearIssueStatus where
  id : String
  identifier : String
  status_name : String
  updated_at : String
deriving Repr, DecidableEq

/-- `linear::client::LinearComment` as returned by `get_issue_comments`. -/
structure LinearComment where
  id : String
  body : String
  created_at : String
  author_name : String
deriving Repr, DecidableEq

/-- `linear::client::UploadFile` as returned by `request_file_upload`. -/
structure UploadFile where
  upload_url : String
  asset_url : String
  headers : List (String × String)
deriving Repr, DecidableEq

/-- `error::AppError`. -/
inductive AppError where
  | discord (msg : String)
  | http (msg : String)
  | database (msg : String)
  | json (msg : String)
  | linearApi (msg : String)
  | attachmentUpload (msg : String)
  | internal (msg : String)
deriving Repr, DecidableEq

/-- Observable side effects of a run, in order of occurrence.
`fetchMessages` is one `channel_id.messages(...)` request, `sleepSecs` /
`sleepMillis` are `tokio::time::sleep` calls, `createIssue` is a successful
`LinearClient::create_issue`, `say` is a successful `ChannelId::say`,
`commentSay` is a successful `channel.say` performed by the comment-mirroring
loop for the given Linear comment id, and `forwardSync` marks one invocation
of `sync_discord_to_linear` by the backfill loop. -/
inductive Effect where
  | fetchMessages (channel_id : Nat)
  | sleepSecs (n : Nat)
  | sleepMillis (n : Nat)
  | createIssue (team_id title description : String) (label_ids : List String)
  | say (channel_id : Nat) (text : String)
  | commentSay (comment_id : String) (channel_id : Nat) (text : String)
  | forwardSync (thread_id : Nat)
deriving Repr, DecidableEq

/-- Result of one stateful operation: its `Result`, the database afterwards,
and the trace of observable effects it produced. -/
structure RunResult (α : Type) where
  res : Except AppError α
  db : Db
  effects : List Effect
deriving Repr

/-- Models Rust `str::parse::<u64>` on a decimal string (helper loop). -/
def parseNatChars : List Char → Nat → Option Nat
  | [], acc => some acc
  | c :: cs, acc =>
    if c.isDigit then parseNatChars cs (acc * 10 + (c.toNat - 48))
    else none

/-- Models Rust `str::parse::<u64>`: `none` on the empty string or any
non-digit character, otherwise the decimal value. -/
def parseNat (s : String) : Option Nat :=
  match s.data with
  | [] => none
  | l => parseNatChars l 0

/-- Environment resolving the external calls made by `sync_discord_to_linear`
(`src/sync/discord_to_linear.rs`).  `fetch_messages n` is the result of the
`channel_id.messages(http, GetMessages::new().limit(1))` request on retry
attempt `n`; the remaining fields resolve the `LinearClient` calls and the
confirmation `ChannelId::say`. -/
structure D2LEnv where
  fetch_messages : Nat → Except AppError (List Message)
  download_attachment : String → Except AppError (List Nat × String)
  request_file_upload : String → String → Nat → Except AppError UploadFile
  put_upload : UploadFile → List Nat → String → Except AppError Unit
  create_issue : String → String → String → List String → Except AppError LinearIssue
  say : Nat → String → Except AppError Nat

/-- `LinearClient::upload_file_to_url`: PUT the bytes to the upload url with
the returned headers; on success the asset url is returned. -/
def upload_file_to_url (env : D2LEnv) (upload : UploadFile) (data : List Nat)
    (content_type : String) : Except AppError String :=
  match env.put_upload upload data content_type with
  | .ok _ => .ok upload.asset_url
  | .error e => .error e

/-- `upload_attachment` (`src/sync/discord_to_linear.rs`): download the
attachment, request an upload slot sized by the downloaded bytes, then upload. -/
def upload_attachment (env : D2LEnv) (url filename : String) : Except AppError String :=
  match env.download_attachment url with
  | .error e => .error e
  | .ok (data, content_type) =>
    match env.request_file_upload filename content_type data.length with
    | .error e => .error e
    | .ok upload => upload_file_to_url env upload data content_type

/-- The loop body of `fetch_first_message_with_retry`: `for attempt in 0..3`,
sleeping 2 seconds before every attempt but the first, returning the first
message of the first successful non-empty listing.  `fuel` is the number of
remaining loop iterations. -/
def fetch_loop (env : D2LEnv) (channel_id : Nat) (attempt fuel : Nat) :
    Option Message × List Effect :=
  match fuel with
  | 0 => (none, [])
  | Nat.succ fuel' =>
    let pre := if attempt > 0 then [Effect.sleepSecs 2] else []
    let fx := pre ++ [Effect.fetchMessages channel_id]
    match env.fetch_messages attempt with
    | .ok messages =>
      match messages.head? with
      | some msg => (some msg, fx)
      | none =>
        let r := fetch_loop env channel_id (attempt + 1) fuel'
        (r.1, fx ++ r.2)
    | .error _ =>
      let r := fetch_loop env channel_id (attempt + 1) fuel'
      (r.1, fx ++ r.2)

/-- `fetch_first_message_with_retry` (`src/sync/discord_to_linear.rs`):
up to 3 attempts, starting at attempt 0. -/
def fetch_first_message_with_retry (env : D2LEnv) (channel_id : Nat) :
    Option Message × List Effect :=
  fetch_loop env channel_id 0 3

/-- The label-list construction of `sync_discord_to_linear`: start from the
channel's primary label, then for each applied forum tag present in
`tag_label_map` append the mapped Linear label. -/
def build_label_ids (cfg : ChannelConfig) (applied_tags : List Nat) : List String :=
  applied_tags.foldl (fun acc tag_id =>
    match cfg.tag_label_map.lookup (toString tag_id) with
    | some linear_label_id => acc ++ [linear_label_id]
    | none => acc) [cfg.linear_label_id]

/-- The attachment loop of `sync_discord_to_linear`: best-effort upload of
each attachment, collecting a markdown link per successful upload and
skipping failures. -/
def build_attachment_links (env : D2LEnv) (atts : List Attachment) : List String :=
  atts.foldl (fun acc a =>
    match upload_attachment env a.url a.filename with
    | .ok asset_url => acc ++ ["![" ++ a.filename ++ "](" ++ asset_url ++ ")"]
    | .error _ => acc) []

/-- The `format!` building the Discord back-link of the issue description. -/
def mk_thread_url (guild_id parent_id thread_id : Nat) : String :=
  "https://discord.com/channels/" ++ toString guild_id ++ "/" ++ toString parent_id ++
    "/" ++ toString thread_id

/-- The issue-description construction of `sync_discord_to_linear`: message
body, separator, back-link, and an attachments section when any link exists. -/
def mk_description (message_body thread_url : String) (attachment_links : List String) : String :=
  let base := message_body ++ "\n\n---\n[Discord Thread](" ++ thread_url ++ ")"
  if attachment_links.isEmpty then base
  else base ++ "\n\n**Attachments:**\n" ++ String.intercalate "\n" attachment_links

/-- The confirmation message posted into the thread after issue creation. -/
def mk_confirmation (issue : LinearIssue) : String :=
  "Tracked as **[" ++ issue.identifier ++ "](" ++ issue.url ++ ")** in Linear"

/-- The tail of `sync_discord_to_linear` after the description and labels are
resolved (`src/sync/discord_to_linear.rs`, from the `create_issue` call on):
create the Linear issue, persist the mapping row, then post the confirmation
message into the thread; `fetch_fx` is the trace of the earlier message
fetch. -/
def sync_create_and_post (env : D2LEnv) (db : Db) (cfg : ChannelConfig)
    (thread : GuildChannel) (description : String) (label_ids : List String)
    (fetch_fx : List Effect) : RunResult Unit :=
  match env.create_issue cfg.linear_team_id thread.name description label_ids with
  | .error e => ⟨.error e, db, fetch_fx⟩
  | .ok issue =>
    let db1 := create_mapping db (toString thread.id) issue.id issue.identifier cfg.channel_type
    let reply := mk_confirmation issue
    match env.say thread.id reply with
    | .error e => ⟨.error e, db1,
        fetch_fx ++
          [Effect.createIssue cfg.linear_team_id thread.name description label_ids]⟩
    | .ok _ => ⟨.ok (), db1,
        fetch_fx ++
          [Effect.createIssue cfg.linear_team_id thread.name description label_ids,
           Effect.say thread.id reply]⟩

/-- `sync_discord_to_linear` (`src/sync/discord_to_linear.rs`): forward sync
of one thread.  Skips threads that already have a mapping, fetches the first
message with bounded retry (placeholder body when absent), builds labels and
best-effort attachment links, then creates the issue, persists the mapping
and posts the confirmation (`sync_create_and_post`). -/
def sync_discord_to_linear (env : D2LEnv) (db : Db) (cfg : ChannelConfig)
    (thread : GuildChannel) : RunResult Unit :=
  let thread_id := toString thread.id
  match get_mapping_by_discord_thread db thread_id with
  | some _ => ⟨.ok (), db, []⟩
  | none =>
    match thread.parent_id with
    | none => ⟨.error (.internal "Thread has no parent channel"), db, []⟩
    | some parent_id =>
      let fetched := fetch_first_message_with_retry env thread.id
      let message_body := match fetched.1 with
        | some msg => msg.content
        | none => "(No message content available)"
      let label_ids := build_label_ids cfg thread.applied_tags
      let attachment_links := match fetched.1 with
        | some msg => build_attachment_links env msg.attachments
        | none => []
      let description :=
        mk_description message_body (mk_thread_url cfg.guild_id parent_id thread.id)
          attachment_links
      sync_create_and_post env db cfg thread description label_ids fetched.2

/-- Stable insertion of a thread into an id-sorted list: the inserted (later
fetched) element goes after all elements with a smaller-or-equal id. -/
def sortByIdInsert (sorted : List GuildChannel) (t : GuildChannel) : List GuildChannel :=
  match sorted with
  | [] => [t]
  | u :: us => if u.id ≤ t.id then u :: sortByIdInsert us t else t :: u :: us

/-- Models `threads.sort_by_key(|t| t.id)` (a stable sort by id). -/
def sortById (l : List GuildChannel) : List GuildChannel :=
  l.foldl sortByIdInsert []

/-- Environment of the backfill orchestrator: `active_threads g` resolves the
`GuildId::get_active_threads` request for guild `g`, and `syncEnv t` is the
environment of the `sync_discord_to_linear` invocation for thread id `t`. -/
structure BackfillEnv where
  active_threads : Nat → Except AppError (List GuildChannel)
  syncEnv : Nat → D2LEnv

/-- The thread loop of `backfill_channel`: already-mapped threads are skipped
(`continue`, bypassing the sleep); otherwise forward sync is invoked, a
success advances and persists the cursor to this thread's id, a failure is
logged and the loop continues, and a 500ms sleep separates iterations. -/
def backfill_loop (env : BackfillEnv) (db : Db) (cfg : ChannelConfig)
    (channel_str : String) (threads : List GuildChannel) (synced : Nat) : RunResult Nat :=
  match threads with
  | [] => ⟨.ok synced, db, []⟩
  | t :: rest =>
    let thread_id := toString t.id
    match get_mapping_by_discord_thread db thread_id with
    | some _ => backfill_loop env db cfg channel_str rest synced
    | none =>
      let r := sync_discord_to_linear (env.syncEnv t.id) db cfg t
      match r.res with
      | .ok _ =>
        let db' := upsert_backfill_state r.db channel_str false (some thread_id)
        let rr := backfill_loop env db' cfg channel_str rest (synced + 1)
        ⟨rr.res, rr.db,
          Effect.forwardSync t.id :: r.effects ++ Effect.sleepMillis 500 :: rr.effects⟩
      | .error _ =>
        let rr := backfill_loop env r.db cfg channel_str rest synced
        ⟨rr.res, rr.db,
          Effect.forwardSync t.id :: r.effects ++ Effect.sleepMillis 500 :: rr.effects⟩

/-- `backfill_channel` (`src/sync/backfill.rs`): read the resume cursor,
fetch the guild's active threads, keep those whose parent is this channel,
sort by id, drop all threads at or below the cursor (parsed with
`unwrap_or(0)`), resolve the channel config and run the thread loop. -/
def backfill_channel (env : BackfillEnv) (db : Db) (config : Config)
    (channel_id guild_id : Nat) : RunResult Nat :=
  let channel_str := toString channel_id
  let resume_after := match get_backfill_state db channel_str with
    | some state => state.last_thread_id
    | none => none
  match env.active_threads guild_id with
  | .error e => ⟨.error e, db, []⟩
  | .ok active =>
    let threads := active.filter (fun t =>
      match t.parent_id with
      | some p => p == channel_id
      | none => false)
    let threads := sortById threads
    let threads := match resume_after with
      | some cursor =>
        let cursor_id := (parseNat cursor).getD 0
        threads.filter (fun t => cursor_id < t.id)
      | none => threads
    match config.channel_config channel_id with
    | none => ⟨.error (.internal ("No config for channel " ++ channel_str)), db, []⟩
    | some cfg => backfill_loop env db cfg channel_str threads 0

/-- The channel loop of `run_backfill` (`src/sync/backfill.rs`): channels with
a `completed` cursor are skipped; otherwise `backfill_channel` runs, and on
success the cursor is upserted to `completed = true` (with no thread id),
while a channel-level error is only logged. -/
def run_backfill_loop (env : BackfillEnv) (db : Db) (config : Config)
    (channels : List ChannelConfig) : RunResult Unit :=
  match channels with
  | [] => ⟨.ok (), db, []⟩
  | cfg :: rest =>
    let channel_str := toString cfg.discord_channel_id
    let skip := match get_backfill_state db channel_str with
      | some state => state.completed
      | none => false
    if skip then run_backfill_loop env db config rest
    else
      let r := backfill_channel env db config cfg.discord_channel_id cfg.guild_id
      match r.res with
      | .ok _ =>
        let db' := upsert_backfill_state r.db channel_str true none
        let rr := run_backfill_loop env db' config rest
        ⟨rr.res, rr.db, r.effects ++ rr.effects⟩
      | .error _ =>
        let rr := run_backfill_loop env r.db config rest
        ⟨rr.res, rr.db, r.effects ++ rr.effects⟩

/-- `run_backfill`: iterate the channel loop over all configured channels. -/
def run_backfill (env : BackfillEnv) (db : Db) (config : Config) : RunResult Unit :=
  run_backfill_loop env db config config.channels

/-- Environment of `sync_linear_to_discord`: the status-message post. -/
structure StatusEnv where
  say : Nat → String → Except AppError Nat

/-- The fixed-format status message of `sync_linear_to_discord`. -/
def mk_status_message (identifier new_status : String) : String :=
  "**" ++ identifier ++ "** status changed to **" ++ new_status ++ "**"

/-- `sync_linear_to_discord` (`src/sync/linear_to_discord.rs`): look up the
mapping by issue id (error when absent), parse the thread id, post the
status message, then upsert the status cache. -/
def sync_linear_to_discord (env : StatusEnv) (db : Db)
    (linear_issue_id identifier new_status : String) : RunResult Unit :=
  match get_mapping_by_linear_issue db linear_issue_id with
  | none => ⟨.error (.internal ("No mapping for issue " ++ identifier)), db, []⟩
  | some mapping =>
    match parseNat mapping.discord_thread_id with
    | none => ⟨.error (.internal "Invalid discord thread id"), db, []⟩
    | some thread_id =>
      let message := mk_status_message identifier new_status
      match env.say thread_id message with
      | .error e => ⟨.error e, db, []⟩
      | .ok _ =>
        ⟨.ok (), upsert_cached_status db linear_issue_id new_status,
          [Effect.say thread_id message]⟩

/-- Environment of `sync_linear_comments_to_discord`: the fetched comment
list, fault injection for the `is_comment_synced` read and the
`insert_synced_comment` write (keyed by comment id), and the message post. -/
structure CommentEnv where
  comments : Except AppError (List LinearComment)
  check_fails : String → Bool
  insert_fails : String → Bool
  say : Nat → String → Except AppError Nat

/-- The quoted comment message: author, identifier, and the body with every
newline continued as a quote line. -/
def mk_comment_message (comment : LinearComment) (identifier : String) : String :=
  "**" ++ comment.author_name ++ "** commented on **" ++ identifier ++ "**:\n> " ++
    comment.body.replace "\n" "\n> "

/-- The comment loop of `sync_linear_comments_to_discord`: for each comment
in list order, a failing or positive `is_comment_synced` check skips it;
otherwise the quoted message is posted (a post error aborts the whole run via
`?`) and the synced-comment row is recorded (a write error likewise aborts). -/
def comment_loop (env : CommentEnv) (db : Db) (channel : Nat)
    (linear_issue_id identifier : String) (comments : List LinearComment) : RunResult Unit :=
  match comments with
  | [] => ⟨.ok (), db, []⟩
  | comment :: rest =>
    if env.check_fails comment.id then
      comment_loop env db channel linear_issue_id identifier rest
    else if is_comment_synced db comment.id then
      comment_loop env db channel linear_issue_id identifier rest
    else
      let message := mk_comment_message comment identifier
      match env.say channel message with
      | .error e => ⟨.error e, db, []⟩
      | .ok sent_id =>
        if env.insert_fails comment.id then
          ⟨.error (.database "insert_synced_comment failed"), db,
            [Effect.commentSay comment.id channel message]⟩
        else
          let db' := insert_synced_comment db comment.id linear_issue_id (toString sent_id)
          let rr := comment_loop env db' channel linear_issue_id identifier rest
          ⟨rr.res, rr.db, Effect.commentSay comment.id channel message :: rr.effects⟩

/-- `sync_linear_comments_to_discord` (`src/sync/linear_to_discord.rs`):
no-op when no mapping exists, parse the thread id, fetch the full comment
list, then run the comment loop. -/
def sync_linear_comments_to_discord (env : CommentEnv) (db : Db)
    (linear_issue_id identifier : String) : RunResult Unit :=
  match get_mapping_by_linear_issue db linear_issue_id with
  | none => ⟨.ok (), db, []⟩
  | some mapping =>
    match parseNat mapping.discord_thread_id with
    | none => ⟨.error (.internal "Invalid discord thread id"), db, []⟩
    | some thread_id =>
      match env.comments with
      | .error e => ⟨.error e, db, []⟩
      | .ok comments =>
        comment_loop env db thread_id linear_issue_id identifier comments

/-- Per-issue environment of the poller body: fault injection for the two DB
reads (`get_mapping_by_linear_issue` and `get_cached_status`), and the
environments of the two reverse syncs. -/
structure IssueEnv where
  mapping_check_fails : Bool
  cache_check_fails : Bool
  statusEnv : StatusEnv
  commentEnv : CommentEnv

/-- The per-issue body of `run_poller` (`src/linear/poller.rs`): skip issues
without a mapping (or whose mapping lookup fails); compute `status_changed`
from the cache (a cache-read error counts as unchanged); when changed, run
`sync_linear_to_discord` (its error only logged); finally always run
`sync_linear_comments_to_discord` (its error only logged). -/
def poller_process_issue (env : IssueEnv) (db : Db) (issue : LinearIssueStatus) :
    Db × List Effect :=
  if env.mapping_check_fails then (db, [])
  else
    match get_mapping_by_linear_issue db issue.id with
    | none => (db, [])
    | some _ =>
      let status_changed :=
        if env.cache_check_fails then false
        else
          match get_cached_status db issue.id with
          | some cached => !(cached == issue.status_name)
          | none => true
      let step1 : Db × List Effect :=
        if status_changed then
          let r := sync_linear_to_discord env.statusEnv db issue.id issue.identifier
            issue.status_name
          (r.db, r.effects)
        else (db, [])
      let r2 := sync_linear_comments_to_discord env.commentEnv step1.1 issue.id issue.identifier
      (r2.db, step1.2 ++ r2.effects)

/-- Per-tick environment of the poller: `issues team` resolves the
`get_updated_issues` fetch for a team, and `issueEnv i` the per-issue
environment for issue id `i`. -/
structure TickEnv where
  issues : String → Except AppError (List LinearIssueStatus)
  issueEnv : String → IssueEnv

/-- Whether a team's `get_updated_issues` fetch succeeds in this tick. -/
def fetch_ok (env : TickEnv) (team_id : String) : Bool :=
  match env.issues team_id with
  | .ok _ => true
  | .error _ => false

/-- The issue loop inside one team's `Ok` branch. -/
def poller_issues_loop (env : TickEnv) (db : Db) (issues : List LinearIssueStatus) :
    Db × List Effect :=
  match issues with
  | [] => (db, [])
  | issue :: rest =>
    let r := poller_process_issue (env.issueEnv issue.id) db issue
    let rr := poller_issues_loop env r.1 rest
    (rr.1, r.2 ++ rr.2)

/-- One team iteration of the tick: a failed fetch is only logged and
contributes `false` to `any_success`; a successful fetch processes every
returned issue and contributes `true`. -/
def poller_process_team (env : TickEnv) (db : Db) (team_id : String) :
    Bool × Db × List Effect :=
  match env.issues team_id with
  | .error _ => (false, db, [])
  | .ok issues =>
    let r := poller_issues_loop env db issues
    (true, r.1, r.2)

/-- The team loop of one tick, accumulating `any_success`. -/
def poller_teams_loop (env : TickEnv) (db : Db) (team_ids : List String) :
    Bool × Db × List Effect :=
  match team_ids with
  | [] => (false, db, [])
  | team_id :: rest =>
    let r := poller_process_team env db team_id
    let rr := poller_teams_loop env r.2.1 rest
    (r.1 || rr.1, rr.2.1, r.2.2 ++ rr.2.2)

/-- One tick of `run_poller`: `now` is captured at tick start, every team is
polled, and the shared cursor becomes `now` exactly when at least one team's
fetch succeeded, otherwise it stays at `last_poll`.  Returns the new cursor,
the database and the effect trace. -/
def run_poller_tick (env : TickEnv) (db : Db) (team_ids : List String)
    (last_poll now : Nat) : Nat × Db × List Effect :=
  let r := poller_teams_loop env db team_ids
  (if r.1 then now else last_poll, r.2.1, r.2.2)

/-- True exactly on `Effect.createIssue` entries of a trace. -/
def isCreateIssue : Effect → Bool
  | .createIssue _ _ _ _ => true
  | _ => false

/-- Number of Linear issues created in a trace. -/
def countCreates (fx : List Effect) : Nat :=
  (fx.filter isCreateIssue).length

/-- Number of `sync_mappings` rows for a given thread id. -/
def countMappings (db : Db) (discord_thread_id : String) : Nat :=
  (db.sync_mappings.filter (fun m => m.discord_thread_id == discord_thread_id)).length

/-- The thread ids for which the backfill loop invoked forward sync, in order. -/
def forwardSyncAttempts (fx : List Effect) : List Nat :=
  fx.filterMap (fun e =>
    match e with
    | .forwardSync n => some n
    | _ => none)

/-- Number of chat messages the comment loop posted for a given comment id. -/
def countCommentPosts (comment_id : String) (fx : List Effect) : Nat :=
  (fx.filter (fun e =>
    match e with
    | .commentSay cid _ _ => cid == comment_id
    | _ => false)).length

/-- The empty database, as after running the migrations on a fresh file. -/
def emptyDb : Db := ⟨[], [], [], []⟩

/-- Example issue returned by the Linear client in concrete runs. -/
def exIssue2 : LinearIssue :=
  ⟨"iss-2", "ABC-2", "thread two", "https://linear.app/abc-2"⟩

/-- Forward-sync environment whose `create_issue` call always fails. -/
def exEnvFail : D2LEnv :=
  { fetch_messages := fun _ => .ok []
    download_attachment := fun _ => .error (.attachmentUpload "download failed")
    request_file_upload := fun _ _ _ => .error (.linearApi "no slot")
    put_upload := fun _ _ _ => .ok ()
    create_issue := fun _ _ _ _ => .error (.linearApi "rate limited")
    say := fun _ _ => .ok 0 }

/-- Forward-sync environment where every call succeeds (empty thread body). -/
def exEnvOk : D2LEnv :=
  { fetch_messages := fun _ => .ok []
    download_attachment := fun _ => .error (.attachmentUpload "download failed")
    request_file_upload := fun _ _ _ => .error (.linearApi "no slot")
    put_upload := fun _ _ _ => .ok ()
    create_issue := fun _ _ _ _ => .ok exIssue2
    say := fun _ _ => .ok 0 }

/-- Example thread 1 (will persistently fail to sync in the concrete runs). -/
def exT1 : GuildChannel := ⟨1, some 10, [], "thread one"⟩

/-- Example thread 2 (syncs successfully in the concrete runs). -/
def exT2 : GuildChannel := ⟨2, some 10, [], "thread two"⟩

/-- Example forum-channel configuration. -/
def exChannelCfg : ChannelConfig := ⟨10, 7, "feature", "team-1", "label-feature", []⟩

/-- Example single-channel configuration. -/
def exConfig : Config := ⟨[exChannelCfg]⟩

/-- Backfill environment where thread 1's forward sync always fails (Linear
rejects the creation) and every other thread syncs fine. -/
def exBackfillEnv : BackfillEnv :=
  { active_threads := fun _ => .ok [exT1, exT2]
    syncEnv := fun n => if n == 1 then exEnvFail else exEnvOk }

/-- Example thread 3. -/
def exT3 : GuildChannel := ⟨3, some 10, [], "thread three"⟩

/-- Database mid-backfill: thread 1 already mapped, cursor at "1",
channel 10 not yet completed. -/
def exResumeDb : Db :=
  ⟨[⟨0, "1", "iss-1", "ABC-1", "feature", ""⟩], [], [],
   [⟨"10", false, some "1", ""⟩]⟩

/-- Backfill environment for the resume run: the guild reports threads
2, 1, 3 (unsorted) and every sync succeeds. -/
def exResumeEnv : BackfillEnv :=
  ⟨fun _ => .ok [exT2, exT1, exT3], fun _ => exEnvOk⟩

/-- Database holding one mapping: thread "5" ↔ issue "iss-1". -/
def exMappedDb : Db := ⟨[⟨0, "5", "iss-1", "ABC-1", "feature", ""⟩], [], [], []⟩

/-- Example Linear comment. -/
def exComment : LinearComment := ⟨"c1", "hello", "2024-01-01", "alice"⟩

/-- Comment-sync environment whose `insert_synced_comment` write fails. -/
def exCommentEnvInsertFail : CommentEnv :=
  ⟨.ok [exComment], fun _ => false, fun _ => true, fun _ _ => .ok 100⟩

/-- Comment-sync environment where every call succeeds. -/
def exCommentEnvOk : CommentEnv :=
  ⟨.ok [exComment], fun _ => false, fun _ => false, fun _ _ => .ok 100⟩

/-- Database with a mapping for issue "iss-1", a cached status "Todo" and the
comment "c1" already mirrored. -/
def exStatusDb : Db :=
  ⟨[⟨0, "5", "iss-1", "ABC-1", "feature", ""⟩], [⟨"iss-1", "Todo", ""⟩],
   [⟨"c1", "iss-1", "100"⟩], []⟩

/-- Poller result for issue "iss-1" reporting status "Todo" again. -/
def exIssueStatus : LinearIssueStatus := ⟨"iss-1", "ABC-1", "Todo", "2024-01-02"⟩

/-- Per-issue poller environment with healthy DB reads. -/
def exIssueEnv : IssueEnv := ⟨false, false, ⟨fun _ _ => .ok 0⟩, exCommentEnvOk⟩

/-- Per-issue poller environment whose status-cache read fails. -/
def exIssueEnvCacheFail : IssueEnv := ⟨false, true, ⟨fun _ _ => .ok 0⟩, exCommentEnvOk⟩

/-- Tick environment where team "team-b" polls fine and every other team's
fetch fails. -/
def exTickEnvPartial : TickEnv :=
  ⟨fun t => if t == "team-b" then .ok [] else .error (.linearApi "down"),
   fun _ => exIssueEnv⟩

/-- Tick environment where every team's fetch fails. -/
def exTickEnvAllFail : TickEnv :=
  ⟨fun _ => .error (.linearApi "down"), fun _ => exIssueEnv⟩

/-- Channel configuration with a tag→label map entry for forum tag "77". -/
def exTagCfg : ChannelConfig :=
  ⟨10, 7, "feature", "team-1", "label-feature", [("77", "label-ux")]⟩

/-- Thread carrying one mapped tag (77) and one unmapped tag (99). -/
def exTagThread : GuildChannel := ⟨3, some 10, [77, 99], "Dark mode request"⟩

/-- Example attachments and message for the best-effort upload runs. -/
def exAtt1 : Attachment := ⟨"https://cdn/a1.png", "a1.png"⟩

/-- Second example attachment (this one uploads fine). -/
def exAtt2 : Attachment := ⟨"https://cdn/a2.png", "a2.png"⟩

/-- Message with two attachments. -/
def exAttMsg : Message := ⟨"look at this", [exAtt1, exAtt2]⟩

/-- Thread whose first message is `exAttMsg`. -/
def exAttThread : GuildChannel := ⟨4, some 10, [], "with attachments"⟩

/-- Forward-sync environment where downloading a1.png fails while a2.png
downloads and uploads fine. -/
def exEnvAttach : D2LEnv :=
  { fetch_messages := fun _ => .ok [exAttMsg]
    download_attachment := fun url =>
      if url == "https://cdn/a1.png" then .error (.attachmentUpload "download failed")
      else .ok ([1, 2], "image/png")
    request_file_upload := fun filename _ _ =>
      .ok ⟨"https://up/" ++ filename, "https://assets/" ++ filename, []⟩
    put_upload := fun _ _ _ => .ok ()
    create_issue := fun _ _ _ _ => .ok exIssue2
    say := fun _ _ => .ok 0 }

theorem countCreates_append (a b : List Effect) :
    countCreates (a ++ b) = countCreates a + countCreates b := by
  simp [countCreates, List.filter_append]

theorem fetch_loop_effects_shape (env : D2LEnv) (cid : Nat) :
    ∀ fuel attempt e, e ∈ (fetch_loop env cid attempt fuel).2 →
      e = Effect.sleepSecs 2 ∨ e = Effect.fetchMessages cid := by
  intro fuel
  induction fuel with
  | zero => intro attempt e he; simp [fetch_loop] at he
  | succ n ih =>
    intro attempt e he
    simp only [fetch_loop] at he
    have hpre : ∀ x, x ∈ (if attempt > 0 then [Effect.sleepSecs 2] else []) →
        x = Effect.sleepSecs 2 := by
      intro x hx; split at hx <;> simp_all
    cases hf : env.fetch_messages attempt <;> rw [hf] at he <;> dsimp only at he
    · rcases List.mem_append.mp he with h | h
      · rcases List.mem_append.mp h with h | h
        · exact Or.inl (hpre e h)
        · exact Or.inr (by simpa using h)
      · exact ih (attempt + 1) e h
    · rename_i messages
      cases hh : messages.head? <;> rw [hh] at he <;> dsimp only at he
      · rcases List.mem_append.mp he with h | h
        · rcases List.mem_append.mp h with h | h
          · exact Or.inl (hpre e h)
          · exact Or.inr (by simpa using h)
        · exact ih (attempt + 1) e h
      · rcases List.mem_append.mp he with h | h
        · exact Or.inl (hpre e h)
        · exact Or.inr (by simpa using h)

theorem countCreates_fetch_loop (env : D2LEnv) (cid : Nat) (fuel attempt : Nat) :
    countCreates (fetch_loop env cid attempt fuel).2 = 0 := by
  rw [countCreates, List.length_eq_zero, List.filter_eq_nil_iff]
  intro e he
  rcases fetch_loop_effects_shape env cid fuel attempt e he with h | h <;>
    subst h <;> simp [isCreateIssue]

theorem countCreates_fetch_first (env : D2LEnv) (cid : Nat) :
    countCreates (fetch_first_message_with_retry env cid).2 = 0 := by
  unfold fetch_first_message_with_retry
  exact countCreates_fetch_loop env cid 3 0

theorem countMappings_create_mapping_self (db : Db) (tid i ident ty : String) :
    countMappings (create_mapping db tid i ident ty) tid = countMappings db tid + 1 := by
  simp [countMappings, create_mapping, List.filter_append]

theorem get_mapping_create_mapping_self (db : Db) (tid i ident ty : String)
    (h : get_mapping_by_discord_thread db tid = none) :
    get_mapping_by_discord_thread (create_mapping db tid i ident ty) tid =
      some { id := db.sync_mappings.length, discord_thread_id := tid, linear_issue_id := i
             linear_identifier := ident, channel_type := ty, created_at := "" } := by
  simp only [get_mapping_by_discord_thread] at h
  simp only [get_mapping_by_discord_thread, create_mapping]
  simp only [List.find?_append, h, Option.none_or]
  simp [List.find?]

theorem sync_create_and_post_ok (env : D2LEnv) (db : Db) (cfg : ChannelConfig)
    (t : GuildChannel) (desc : String) (labels : List String) (fx : List Effect)
    (hok : (sync_create_and_post env db cfg t desc labels fx).res = .ok ()) :
    ∃ issue : LinearIssue,
      sync_create_and_post env db cfg t desc labels fx =
        ⟨.ok (), create_mapping db (toString t.id) issue.id issue.identifier cfg.channel_type,
         fx ++ [Effect.createIssue cfg.linear_team_id t.name desc labels,
                Effect.say t.id (mk_confirmation issue)]⟩ := by
  unfold sync_create_and_post at hok ⊢
  revert hok
  cases hc : env.create_issue cfg.linear_team_id t.name desc labels <;> intro hok
  · simp at hok
  · rename_i issue
    dsimp only at hok ⊢
    revert hok
    cases hs : env.say t.id (mk_confirmation issue) <;> intro hok
    · simp at hok
    · exact ⟨issue, rfl⟩

theorem countMappings_zero_get_mapping (db : Db) (tid : String)
    (h : countMappings db tid = 0) :
    get_mapping_by_discord_thread db tid = none := by
  rw [get_mapping_by_discord_thread, List.find?_eq_none]
  intro m hm hbeq
  have hmem : m ∈ db.sync_mappings.filter (fun m => m.discord_thread_id == tid) :=
    List.mem_filter.mpr ⟨hm, hbeq⟩
  rw [countMappings, List.length_eq_zero] at h
  simp [h] at hmem

theorem sync_ok_characterization (env : D2LEnv) (db : Db) (cfg : ChannelConfig)
    (t : GuildChannel)
    (hm : get_mapping_by_discord_thread db (toString t.id) = none)
    (hok : (sync_discord_to_linear env db cfg t).res = .ok ()) :
    ∃ issue : LinearIssue,
      (sync_discord_to_linear env db cfg t).db =
        create_mapping db (toString t.id) issue.id issue.identifier cfg.channel_type ∧
      countCreates (sync_discord_to_linear env db cfg t).effects = 1 := by
  cases hp : t.parent_id with
  | none =>
    simp only [sync_discord_to_linear, hm, hp] at hok
    simp at hok
  | some parent_id =>
    simp only [sync_discord_to_linear, hm, hp] at hok ⊢
    obtain ⟨issue, heq⟩ := sync_create_and_post_ok env db cfg t _ _ _ hok
    rw [heq]
    refine ⟨issue, rfl, ?_⟩
    rw [countCreates_append, countCreates_fetch_first]
    simp [countCreates, isCreateIssue]

/-- Claim C1: forward sync is idempotent per thread.  If a `sync_mappings`
row already exists for the thread id, `sync_discord_to_linear` returns
success with the database unchanged and an empty effect trace (no issue
created, no row written, no message posted); consequently running forward
sync twice on a previously unmapped thread leaves exactly one mapping row
for the thread and exactly one created issue in the combined trace. -/
theorem sync_discord_to_linear_idempotent
    (env env' : D2LEnv) (db : Db) (cfg : ChannelConfig) (thread : GuildChannel) :
    (∀ m, get_mapping_by_discord_thread db (toString thread.id) = some m →
       sync_discord_to_linear env db cfg thread = ⟨.ok (), db, []⟩)
  ∧ (countMappings db (toString thread.id) = 0 →
     (sync_discord_to_linear env db cfg thread).res = .ok () →
       countMappings (sync_discord_to_linear env'
           (sync_discord_to_linear env db cfg thread).db cfg thread).db (toString thread.id) = 1
     ∧ countCreates ((sync_discord_to_linear env db cfg thread).effects ++
         (sync_discord_to_linear env'
           (sync_discord_to_linear env db cfg thread).db cfg thread).effects) = 1
     ∧ (sync_discord_to_linear env'
         (sync_discord_to_linear env db cfg thread).db cfg thread).res = .ok ()) := by
  constructor
  · intro m hm
    simp only [sync_discord_to_linear, hm]
  · intro hzero hok
    have hm := countMappings_zero_get_mapping db (toString thread.id) hzero
    obtain ⟨issue, hdb, hcnt⟩ := sync_ok_characterization env db cfg thread hm hok
    have hmapped := get_mapping_create_mapping_self db (toString thread.id)
      issue.id issue.identifier cfg.channel_type hm
    have hsecond : sync_discord_to_linear env'
        (sync_discord_to_linear env db cfg thread).db cfg thread =
        ⟨.ok (), (sync_discord_to_linear env db cfg thread).db, []⟩ := by
      rw [hdb]
      simp only [sync_discord_to_linear, hmapped]
    refine ⟨?_, ?_, ?_⟩
    · rw [hsecond]
      simp only [hdb]
      rw [countMappings_create_mapping_self]
      omega
    · rw [hsecond, countCreates_append, hcnt]
      rfl
    · rw [hsecond]

/-- Concrete instance of claim C1: a mapped thread is a no-op, and syncing a
fresh thread twice leaves exactly one mapping row. -/
theorem sync_discord_to_linear_idempotent_witness :
    sync_discord_to_linear exEnvOk exMappedDb exChannelCfg ⟨5, some 10, [], "t"⟩ =
      ⟨.ok (), exMappedDb, []⟩ ∧
    countMappings (sync_discord_to_linear exEnvOk
        (sync_discord_to_linear exEnvOk emptyDb exChannelCfg exT2).db exChannelCfg exT2).db
      "2" = 1 := by
  constructor
  · exact (sync_discord_to_linear_idempotent exEnvOk exEnvOk exMappedDb exChannelCfg
      ⟨5, some 10, [], "t"⟩).1 ⟨0, "5", "iss-1", "ABC-1", "feature", ""⟩ (by decide)
  · exact ((sync_discord_to_linear_idempotent exEnvOk exEnvOk emptyDb exChannelCfg exT2).2
      (by decide) (by rfl)).1

theorem is_comment_synced_insert (db : Db) (c c' i m : String)
    (h : is_comment_synced db c = true) :
    is_comment_synced (insert_synced_comment db c' i m) c = true := by
  simp only [is_comment_synced, insert_synced_comment, List.any_append]
  simp only [is_comment_synced] at h
  simp [h]

theorem countCommentPosts_nil (cid : String) : countCommentPosts cid [] = 0 := rfl

theorem countCommentPosts_append (cid : String) (a b : List Effect) :
    countCommentPosts cid (a ++ b) = countCommentPosts cid a + countCommentPosts cid b := by
  simp [countCommentPosts, List.filter_append]

theorem countCommentPosts_cons_say (cid c : String) (ch : Nat) (s : String) (fx : List Effect) :
    countCommentPosts cid (Effect.commentSay c ch s :: fx) =
      (if c == cid then 1 else 0) + countCommentPosts cid fx := by
  simp only [countCommentPosts, List.filter_cons]
  by_cases hq : (c == cid) = true
  · simp [hq, Nat.add_comm]
  · simp [hq]

theorem comment_loop_skip (env : CommentEnv) (channel : Nat)
    (issue_id identifier cid : String) :
    ∀ (comments : List LinearComment) (db : Db), is_comment_synced db cid = true →
      countCommentPosts cid
        (comment_loop env db channel issue_id identifier comments).effects = 0 := by
  intro comments
  induction comments with
  | nil => intro db _; rfl
  | cons c rest ih =>
    intro db h
    simp only [comment_loop]
    cases hcf : env.check_fails c.id
    · cases hcs : is_comment_synced db c.id
      · have hne : (c.id == cid) = false := by
          cases hq : c.id == cid
          · rfl
          · rw [beq_iff_eq] at hq; rw [hq] at hcs; rw [hcs] at h; exact absurd h (by simp)
        cases hsay : env.say channel (mk_comment_message c identifier)
        · simp [countCommentPosts]
        · cases hif : env.insert_fails c.id
          · simp only [Bool.false_eq_true, if_false]
            simp [countCommentPosts, hne]
            have := ih (insert_synced_comment db c.id issue_id (toString ‹Nat›))
              (is_comment_synced_insert db cid c.id issue_id _ h)
            simpa [countCommentPosts] using this
          · simp [countCommentPosts, hne]
      · simp only [hcs, if_true]
        exact ih db h
    · exact ih db h

theorem comment_loop_at_most_once (env : CommentEnv) (channel : Nat)
    (issue_id identifier cid : String) :
    ∀ (comments : List LinearComment) (db : Db),
      countCommentPosts cid
        (comment_loop env db channel issue_id identifier comments).effects ≤ 1 := by
  intro comments
  induction comments with
  | nil => intro db; simp [comment_loop, countCommentPosts]
  | cons c rest ih =>
    intro db
    simp only [comment_loop]
    cases hcf : env.check_fails c.id
    · cases hcs : is_comment_synced db c.id
      · cases hsay : env.say channel (mk_comment_message c identifier)
        · simp [countCommentPosts]
        · cases hif : env.insert_fails c.id
          · rename_i sent
            simp only [Bool.false_eq_true, if_false]
            rw [countCommentPosts_cons_say]
            cases hq : c.id == cid
            · simp only [Bool.false_eq_true, if_false, Nat.zero_add]
              exact ih (insert_synced_comment db c.id issue_id (toString sent))
            · have hrow : is_comment_synced
                  (insert_synced_comment db c.id issue_id (toString sent)) cid = true := by
                simp [is_comment_synced, insert_synced_comment, List.any_append, hq]
              have h0 := comment_loop_skip env channel issue_id identifier cid rest
                (insert_synced_comment db c.id issue_id (toString sent)) hrow
              rw [h0]
              simp
          · simp only [if_true]
            cases hq : c.id == cid <;> simp [countCommentPosts, List.filter_cons, hq]
      · simp only [hcs, if_true]
        exact ih db
    · exact ih db

theorem comment_loop_preserves_row (env : CommentEnv) (channel : Nat)
    (issue_id identifier cid : String) :
    ∀ (comments : List LinearComment) (db : Db), is_comment_synced db cid = true →
      is_comment_synced
        (comment_loop env db channel issue_id identifier comments).db cid = true := by
  intro comments
  induction comments with
  | nil => intro db h; exact h
  | cons c rest ih =>
    intro db h
    simp only [comment_loop]
    cases hcf : env.check_fails c.id
    · cases hcs : is_comment_synced db c.id
      · cases hsay : env.say channel (mk_comment_message c identifier)
        · exact h
        · cases hif : env.insert_fails c.id
          · rename_i sent
            simp only [Bool.false_eq_true, if_false]
            exact ih (insert_synced_comment db c.id issue_id (toString sent))
              (is_comment_synced_insert db cid c.id issue_id _ h)
          · exact h
      · simp only [hcs, if_true]
        exact ih db h
    · exact ih db h

theorem comment_loop_ok_posted_row (env : CommentEnv) (channel : Nat)
    (issue_id identifier cid : String) :
    ∀ (comments : List LinearComment) (db : Db),
      (comment_loop env db channel issue_id identifier comments).res = .ok () →
      1 ≤ countCommentPosts cid
        (comment_loop env db channel issue_id identifier comments).effects →
      is_comment_synced
        (comment_loop env db channel issue_id identifier comments).db cid = true := by
  intro comments
  induction comments with
  | nil => intro db _ hcnt; simp [comment_loop, countCommentPosts] at hcnt
  | cons c rest ih =>
    intro db hok hcnt
    simp only [comment_loop] at hok hcnt ⊢
    by_cases hcf : env.check_fails c.id = true
    · rw [if_pos hcf] at hok hcnt ⊢
      exact ih db hok hcnt
    · rw [if_neg hcf] at hok hcnt ⊢
      by_cases hcs : is_comment_synced db c.id = true
      · rw [if_pos hcs] at hok hcnt ⊢
        exact ih db hok hcnt
      · rw [if_neg hcs] at hok hcnt ⊢
        revert hok hcnt
        cases hsay : env.say channel (mk_comment_message c identifier) <;> intro hok hcnt
        · simp at hok
        · rename_i sent
          dsimp only at hok hcnt ⊢
          by_cases hif : env.insert_fails c.id = true
          · rw [if_pos hif] at hok
            simp at hok
          · rw [if_neg hif] at hok hcnt ⊢
            dsimp only at hok hcnt ⊢
            rw [countCommentPosts_cons_say] at hcnt
            cases hq : c.id == cid
            · rw [hq] at hcnt
              simp only [Bool.false_eq_true, if_false, Nat.zero_add] at hcnt
              exact ih (insert_synced_comment db c.id issue_id (toString sent)) hok hcnt
            · apply comment_loop_preserves_row
              simp [is_comment_synced, insert_synced_comment, List.any_append, hq]

theorem comment_loop_all_synced (env : CommentEnv) (channel : Nat)
    (issue_id identifier : String) :
    ∀ (comments : List LinearComment) (db : Db),
      (∀ c ∈ comments, is_comment_synced db c.id = true) →
      comment_loop env db channel issue_id identifier comments = ⟨.ok (), db, []⟩ := by
  intro comments
  induction comments with
  | nil => intro db _; rfl
  | cons c rest ih =>
    intro db h
    simp only [comment_loop]
    cases hcf : env.check_fails c.id
    · rw [h c (by simp)]
      simp only [if_true]
      exact ih db (fun x hx => h x (by simp [hx]))
    · exact ih db (fun x hx => h x (by simp [hx]))

theorem comment_loop_preserves_cache (env : CommentEnv) (channel : Nat)
    (issue_id identifier : String) :
    ∀ (comments : List LinearComment) (db : Db),
      (comment_loop env db channel issue_id identifier comments).db.linear_status_cache =
        db.linear_status_cache := by
  intro comments
  induction comments with
  | nil => intro db; rfl
  | cons c rest ih =>
    intro db
    simp only [comment_loop]
    cases hcf : env.check_fails c.id
    · cases hcs : is_comment_synced db c.id
      · cases hsay : env.say channel (mk_comment_message c identifier)
        · rfl
        · cases hif : env.insert_fails c.id
          · rename_i sent
            simp only [Bool.false_eq_true, if_false]
            rw [ih (insert_synced_comment db c.id issue_id (toString sent))]
            rfl
          · rfl
      · simp only [hcs, if_true]
        exact ih db
    · exact ih db

theorem comments_sync_skip (env : CommentEnv) (db : Db) (issue_id identifier cid : String)
    (h : is_comment_synced db cid = true) :
    countCommentPosts cid
      (sync_linear_comments_to_discord env db issue_id identifier).effects = 0 := by
  unfold sync_linear_comments_to_discord
  cases hm : get_mapping_by_linear_issue db issue_id
  · rfl
  · rename_i mapping
    dsimp only
    cases hp : parseNat mapping.discord_thread_id
    · rfl
    · rename_i tid
      dsimp only
      cases hc : env.comments
      · rfl
      · rename_i comments
        exact comment_loop_skip env tid issue_id identifier cid comments db h

theorem comments_sync_at_most_once (env : CommentEnv) (db : Db)
    (issue_id identifier cid : String) :
    countCommentPosts cid
      (sync_linear_comments_to_discord env db issue_id identifier).effects ≤ 1 := by
  unfold sync_linear_comments_to_discord
  cases hm : get_mapping_by_linear_issue db issue_id
  · simp [countCommentPosts]
  · rename_i mapping
    dsimp only
    cases hp : parseNat mapping.discord_thread_id
    · simp [countCommentPosts]
    · rename_i tid
      dsimp only
      cases hc : env.comments
      · simp [countCommentPosts]
      · rename_i comments
        exact comment_loop_at_most_once env tid issue_id identifier cid comments db

theorem comments_sync_ok_posted_row (env : CommentEnv) (db : Db)
    (issue_id identifier cid : String)
    (hok : (sync_linear_comments_to_discord env db issue_id identifier).res = .ok ())
    (hcnt : 1 ≤ countCommentPosts cid
      (sync_linear_comments_to_discord env db issue_id identifier).effects) :
    is_comment_synced
      (sync_linear_comments_to_discord env db issue_id identifier).db cid = true := by
  unfold sync_linear_comments_to_discord at hok hcnt ⊢
  revert hok hcnt
  cases hm : get_mapping_by_linear_issue db issue_id <;> intro hok hcnt
  · simp [countCommentPosts] at hcnt
  · rename_i mapping
    dsimp only at hok hcnt ⊢
    revert hok hcnt
    cases hp : parseNat mapping.discord_thread_id <;> intro hok hcnt
    · simp [countCommentPosts] at hcnt
    · rename_i tid
      dsimp only at hok hcnt ⊢
      revert hok hcnt
      cases hc : env.comments <;> intro hok hcnt
      · simp [countCommentPosts] at hcnt
      · rename_i comments
        exact comment_loop_ok_posted_row env tid issue_id identifier cid comments db hok hcnt

theorem comments_sync_preserves_row (env : CommentEnv) (db : Db)
    (issue_id identifier cid : String) (h : is_comment_synced db cid = true) :
    is_comment_synced
      (sync_linear_comments_to_discord env db issue_id identifier).db cid = true := by
  unfold sync_linear_comments_to_discord
  cases hm : get_mapping_by_linear_issue db issue_id
  · exact h
  · rename_i mapping
    dsimp only
    cases hp : parseNat mapping.discord_thread_id
    · exact h
    · rename_i tid
      dsimp only
      cases hc : env.comments
      · exact h
      · rename_i comments
        exact comment_loop_preserves_row env tid issue_id identifier cid comments db h

theorem comments_sync_all_synced (env : CommentEnv) (db : Db) (issue_id identifier : String)
    (h : ∀ cs, env.comments = .ok cs → ∀ c ∈ cs, is_comment_synced db c.id = true) :
    (sync_linear_comments_to_discord env db issue_id identifier).db = db ∧
    (sync_linear_comments_to_discord env db issue_id identifier).effects = [] := by
  unfold sync_linear_comments_to_discord
  cases hm : get_mapping_by_linear_issue db issue_id
  · exact ⟨rfl, rfl⟩
  · rename_i mapping
    dsimp only
    cases hp : parseNat mapping.discord_thread_id
    · exact ⟨rfl, rfl⟩
    · rename_i tid
      dsimp only
      cases hc : env.comments
      · exact ⟨rfl, rfl⟩
      · rename_i comments
        dsimp only
        rw [comment_loop_all_synced env tid issue_id identifier comments db (h comments hc)]
        exact ⟨rfl, rfl⟩

theorem comments_sync_preserves_cache (env : CommentEnv) (db : Db)
    (issue_id identifier : String) :
    (sync_linear_comments_to_discord env db issue_id identifier).db.linear_status_cache =
      db.linear_status_cache := by
  unfold sync_linear_comments_to_discord
  cases hm : get_mapping_by_linear_issue db issue_id
  · rfl
  · rename_i mapping
    dsimp only
    cases hp : parseNat mapping.discord_thread_id
    · rfl
    · rename_i tid
      dsimp only
      cases hc : env.comments
      · rfl
      · rename_i comments
        exact comment_loop_preserves_cache env tid issue_id identifier comments db

/-- Claim C3: when the cached status of an issue equals the status the poller
just fetched, the per-issue poller body posts nothing and leaves the database
(including the StatusCache entry) unchanged; the hypothesis on the comment
environment states that this tick discovers no unmirrored comment. -/
theorem poller_same_status_no_post (env : IssueEnv) (db : Db) (issue : LinearIssueStatus)
    (hmf : env.mapping_check_fails = false)
    (hcf : env.cache_check_fails = false)
    (hcache : get_cached_status db issue.id = some issue.status_name)
    (hsynced : ∀ cs, env.commentEnv.comments = .ok cs →
      ∀ c ∈ cs, is_comment_synced db c.id = true) :
    poller_process_issue env db issue = (db, []) := by
  unfold poller_process_issue
  rw [hmf]
  simp only [Bool.false_eq_true, if_false]
  cases hm : get_mapping_by_linear_issue db issue.id
  · rfl
  · dsimp only
    rw [hcf]
    simp only [Bool.false_eq_true, if_false]
    rw [hcache]
    simp only [beq_self_eq_true, Bool.not_true, Bool.false_eq_true, if_false]
    obtain ⟨hdb, hfx⟩ := comments_sync_all_synced env.commentEnv db issue.id
      issue.identifier hsynced
    rw [hdb, hfx]
    rfl

/-- Concrete instance of claim C3: issue "iss-1" reports "Todo" again while
the cache already holds "Todo"; the poller body is a complete no-op. -/
theorem poller_same_status_no_post_witness :
    poller_process_issue exIssueEnv exStatusDb exIssueStatus = (exStatusDb, []) := by
  exact poller_same_status_no_post exIssueEnv exStatusDb exIssueStatus rfl rfl (by decide)
    (by intro cs h
        simp only [exIssueEnv, exCommentEnvOk] at h
        cases h
        decide)

/-- Claim C10: when the status-cache read for a mapped issue fails, the
per-issue poller body treats the status as unchanged — it performs exactly
the comment sync (so no status message is posted) — and the status cache is
left untouched. -/
theorem poller_cache_error_treats_unchanged (env : IssueEnv) (db : Db)
    (issue : LinearIssueStatus) (m : SyncMapping)
    (hmf : env.mapping_check_fails = false)
    (hmap : get_mapping_by_linear_issue db issue.id = some m)
    (hcf : env.cache_check_fails = true) :
    poller_process_issue env db issue =
      ((sync_linear_comments_to_discord env.commentEnv db issue.id issue.identifier).db,
       (sync_linear_comments_to_discord env.commentEnv db issue.id issue.identifier).effects) ∧
    (sync_linear_comments_to_discord env.commentEnv db issue.id
      issue.identifier).db.linear_status_cache = db.linear_status_cache := by
  constructor
  · unfold poller_process_issue
    rw [hmf]
    simp only [Bool.false_eq_true, if_false]
    rw [hmap]
    dsimp only
    rw [hcf]
    simp only [if_true, Bool.false_eq_true, if_false, List.nil_append]
  · exact comments_sync_preserves_cache env.commentEnv db issue.id issue.identifier

/-- Concrete instance of claim C10: with a failing cache read, the poller body
for issue "iss-1" still mirrors the fetched comment and touches no cache. -/
theorem poller_cache_error_treats_unchanged_witness :
    poller_process_issue exIssueEnvCacheFail exMappedDb exIssueStatus =
      ((sync_linear_comments_to_discord exCommentEnvOk exMappedDb "iss-1" "ABC-1").db,
       (sync_linear_comments_to_discord exCommentEnvOk exMappedDb "iss-1" "ABC-1").effects) ∧
    (sync_linear_comments_to_discord exCommentEnvOk exMappedDb "iss-1"
      "ABC-1").db.linear_status_cache = exMappedDb.linear_status_cache := by
  exact poller_cache_error_treats_unchanged exIssueEnvCacheFail exMappedDb exIssueStatus
    ⟨0, "5", "iss-1", "ABC-1", "feature", ""⟩ rfl (by decide) rfl

/-- Claim C4 counterexample: with comment "c1" in the fetched list both
times, a first invocation whose `insert_synced_comment` write fails posts the
message but records no row, and a second invocation posts it again — two
posts in total, refuting unconditional at-most-once mirroring. -/
theorem comment_sync_at_most_once_counterexample :
    countCommentPosts "c1"
      ((sync_linear_comments_to_discord exCommentEnvInsertFail exMappedDb
          "iss-1" "ABC-1").effects ++
       (sync_linear_comments_to_discord exCommentEnvOk
         (sync_linear_comments_to_discord exCommentEnvInsertFail exMappedDb
           "iss-1" "ABC-1").db
         "iss-1" "ABC-1").effects) = 2 ∧
    exCommentEnvInsertFail.comments = .ok [exComment] ∧
    exCommentEnvOk.comments = .ok [exComment] ∧
    exComment.id = "c1" := by
  refine ⟨?_, rfl, rfl, rfl⟩
  decide

/-- Claim C4 (amended): a comment with an existing SyncedItem row is never
posted; any single invocation of reverse comment sync posts a given comment
at most once; and across two consecutive invocations the comment is posted
at most once provided the first invocation returned success (i.e. its
SyncedItem inserts all succeeded).  A SyncedItem-insert failure after a
successful post is the documented at-least-once window. -/
theorem comment_sync_at_most_once_amended (env env' : CommentEnv) (db : Db)
    (issue_id identifier cid : String) :
    (is_comment_synced db cid = true →
      countCommentPosts cid
        (sync_linear_comments_to_discord env db issue_id identifier).effects = 0) ∧
    countCommentPosts cid
      (sync_linear_comments_to_discord env db issue_id identifier).effects ≤ 1 ∧
    ((sync_linear_comments_to_discord env db issue_id identifier).res = .ok () →
      countCommentPosts cid
        ((sync_linear_comments_to_discord env db issue_id identifier).effects ++
         (sync_linear_comments_to_discord env'
           (sync_linear_comments_to_discord env db issue_id identifier).db
           issue_id identifier).effects) ≤ 1) := by
  refine ⟨fun h => comments_sync_skip env db issue_id identifier cid h,
          comments_sync_at_most_once env db issue_id identifier cid, ?_⟩
  intro hok
  rw [countCommentPosts_append]
  rcases Nat.eq_zero_or_pos (countCommentPosts cid
      (sync_linear_comments_to_discord env db issue_id identifier).effects) with h0 | h1
  · rw [h0]
    simpa using comments_sync_at_most_once env' _ issue_id identifier cid
  · have hrow := comments_sync_ok_posted_row env db issue_id identifier cid hok h1
    have h2 := comments_sync_skip env' _ issue_id identifier cid hrow
    rw [h2]
    have hone := comments_sync_at_most_once env db issue_id identifier cid
    omega

/-- Concrete instance of amended claim C4: an already-mirrored comment is
not re-posted, and two healthy consecutive invocations post "c1" once. -/
theorem comment_sync_at_most_once_amended_witness :
    countCommentPosts "c1"
      (sync_linear_comments_to_discord exCommentEnvOk exStatusDb "iss-1" "ABC-1").effects
      = 0 ∧
    countCommentPosts "c1"
      ((sync_linear_comments_to_discord exCommentEnvOk exMappedDb "iss-1" "ABC-1").effects ++
       (sync_linear_comments_to_discord exCommentEnvOk
         (sync_linear_comments_to_discord exCommentEnvOk exMappedDb "iss-1" "ABC-1").db
         "iss-1" "ABC-1").effects) ≤ 1 := by
  constructor
  · exact (comment_sync_at_most_once_amended exCommentEnvOk exCommentEnvOk exStatusDb
      "iss-1" "ABC-1" "c1").1 (by decide)
  · exact (comment_sync_at_most_once_amended exCommentEnvOk exCommentEnvOk exMappedDb
      "iss-1" "ABC-1" "c1").2.2 (by rfl)

theorem poller_teams_loop_any_success (env : TickEnv) :
    ∀ (teams : List String) (db : Db),
      (poller_teams_loop env db teams).1 = teams.any (fetch_ok env) := by
  intro teams
  induction teams with
  | nil => intro db; rfl
  | cons team rest ih =>
    intro db
    simp only [poller_teams_loop, List.any_cons]
    have hteam : ∀ d : Db, (poller_process_team env d team).1 = fetch_ok env team := by
      intro d
      unfold poller_process_team fetch_ok
      cases h : env.issues team <;> rfl
    rw [hteam, ih]

/-- Claim C5: the tick cursor returned by one poller tick is `now` (captured
at tick start) exactly when at least one team's fetch succeeded, and stays at
`last_poll` when every team's fetch failed, so all teams are retried on the
same window next tick. -/
theorem poller_cursor_advance_iff (env : TickEnv) (db : Db) (team_ids : List String)
    (last_poll now : Nat) :
    (run_poller_tick env db team_ids last_poll now).1 =
      (if team_ids.any (fetch_ok env) then now else last_poll) ∧
    ((∃ t ∈ team_ids, fetch_ok env t = true) →
      (run_poller_tick env db team_ids last_poll now).1 = now) ∧
    ((∀ t ∈ team_ids, fetch_ok env t = false) →
      (run_poller_tick env db team_ids last_poll now).1 = last_poll) := by
  have h := poller_teams_loop_any_success env team_ids db
  refine ⟨?_, ?_, ?_⟩
  · simp only [run_poller_tick]
    rw [h]
  · intro hex
    simp only [run_poller_tick]
    rw [h]
    have : team_ids.any (fetch_ok env) = true := List.any_eq_true.mpr hex
    rw [this]
    rfl
  · intro hall
    simp only [run_poller_tick]
    rw [h]
    have : team_ids.any (fetch_ok env) = false := by
      rw [List.any_eq_false]
      intro t ht
      rw [hall t ht]
      simp
    rw [this]
    rfl

/-- Concrete instance of claim C5: with one of two teams succeeding the
cursor advances to now = 5; with both failing it stays at last_poll = 3. -/
theorem poller_cursor_advance_iff_witness :
    (run_poller_tick exTickEnvPartial emptyDb ["team-a", "team-b"] 3 5).1 = 5 ∧
    (run_poller_tick exTickEnvAllFail emptyDb ["team-a", "team-b"] 3 5).1 = 3 := by
  constructor
  · exact (poller_cursor_advance_iff exTickEnvPartial emptyDb ["team-a", "team-b"] 3 5).2.1
      ⟨"team-b", by decide, by decide⟩
  · exact (poller_cursor_advance_iff exTickEnvAllFail emptyDb ["team-a", "team-b"] 3 5).2.2
      (by decide)

theorem fetch_loop_step_none (env : D2LEnv) (cid a n : Nat)
    (h : ∀ msgs, env.fetch_messages a = .ok msgs → msgs = []) :
    fetch_loop env cid a (n + 1) =
      ((fetch_loop env cid (a + 1) n).1,
       ((if a > 0 then [Effect.sleepSecs 2] else []) ++ [Effect.fetchMessages cid]) ++
         (fetch_loop env cid (a + 1) n).2) := by
  simp only [fetch_loop]
  cases hf : env.fetch_messages a
  · rfl
  · rename_i msgs
    have hmsgs := h msgs hf
    subst hmsgs
    rfl

/-- Claim C7: the first-message fetch is retried up to 3 times with a
2-second sleep between attempts; when every attempt yields no message the
result is `none` after exactly 3 attempts, forward sync proceeds with the
placeholder body "(No message content available)" and still creates the
issue; and a first attempt that finds a message returns it after a single
request. -/
theorem fetch_retry_placeholder (env env' : D2LEnv) (db : Db) (cfg : ChannelConfig)
    (thread : GuildChannel) (parent_id : Nat) (issue : LinearIssue) (say_id : Nat)
    (hm : get_mapping_by_discord_thread db (toString thread.id) = none)
    (hp : thread.parent_id = some parent_id)
    (hnone : ∀ a msgs, a < 3 → env.fetch_messages a = .ok msgs → msgs = [])
    (hcr : ∀ a b c d, env.create_issue a b c d = .ok issue)
    (hsay : ∀ c s, env.say c s = .ok say_id) :
    fetch_first_message_with_retry env thread.id =
      (none, [Effect.fetchMessages thread.id, Effect.sleepSecs 2,
              Effect.fetchMessages thread.id, Effect.sleepSecs 2,
              Effect.fetchMessages thread.id]) ∧
    (sync_discord_to_linear env db cfg thread).res = .ok () ∧
    (sync_discord_to_linear env db cfg thread).effects =
      [Effect.fetchMessages thread.id, Effect.sleepSecs 2,
       Effect.fetchMessages thread.id, Effect.sleepSecs 2,
       Effect.fetchMessages thread.id] ++
      [Effect.createIssue cfg.linear_team_id thread.name
         (mk_description "(No message content available)"
           (mk_thread_url cfg.guild_id parent_id thread.id) [])
         (build_label_ids cfg thread.applied_tags),
       Effect.say thread.id (mk_confirmation issue)] ∧
    (∀ msg msgs, env'.fetch_messages 0 = .ok (msg :: msgs) →
      fetch_first_message_with_retry env' thread.id =
        (some msg, [Effect.fetchMessages thread.id])) := by
  have hfetch : fetch_first_message_with_retry env thread.id =
      (none, [Effect.fetchMessages thread.id, Effect.sleepSecs 2,
              Effect.fetchMessages thread.id, Effect.sleepSecs 2,
              Effect.fetchMessages thread.id]) := by
    unfold fetch_first_message_with_retry
    rw [fetch_loop_step_none env thread.id 0 2 (fun msgs h => hnone 0 msgs (by omega) h)]
    rw [fetch_loop_step_none env thread.id 1 1 (fun msgs h => hnone 1 msgs (by omega) h)]
    rw [fetch_loop_step_none env thread.id 2 0 (fun msgs h => hnone 2 msgs (by omega) h)]
    simp [fetch_loop]
  have hsync : sync_discord_to_linear env db cfg thread =
      ⟨.ok (), create_mapping db (toString thread.id) issue.id issue.identifier
         cfg.channel_type,
       [Effect.fetchMessages thread.id, Effect.sleepSecs 2,
        Effect.fetchMessages thread.id, Effect.sleepSecs 2,
        Effect.fetchMessages thread.id] ++
       [Effect.createIssue cfg.linear_team_id thread.name
          (mk_description "(No message content available)"
            (mk_thread_url cfg.guild_id parent_id thread.id) [])
          (build_label_ids cfg thread.applied_tags),
        Effect.say thread.id (mk_confirmation issue)]⟩ := by
    simp only [sync_discord_to_linear, hm, hp, hfetch]
    unfold sync_create_and_post
    rw [hcr]
    dsimp only
    rw [hsay]
  refine ⟨hfetch, ?_, ?_, ?_⟩
  · rw [hsync]
  · rw [hsync]
  · intro msg msgs hfirst
    unfold fetch_first_message_with_retry
    simp only [fetch_loop, hfirst]
    rfl

/-- Concrete instance of claim C7: with every listing empty, forward sync of
thread 1 makes 3 fetch attempts, sleeps twice, and still creates the issue. -/
theorem fetch_retry_placeholder_witness :
    fetch_first_message_with_retry exEnvOk 1 =
      (none, [Effect.fetchMessages 1, Effect.sleepSecs 2, Effect.fetchMessages 1,
              Effect.sleepSecs 2, Effect.fetchMessages 1]) ∧
    (sync_discord_to_linear exEnvOk emptyDb exChannelCfg exT1).res = .ok () := by
  have h := fetch_retry_placeholder exEnvOk exEnvOk emptyDb exChannelCfg exT1 10 exIssue2 0
    (by decide) (by decide)
    (by intro a msgs _ hmsg
        cases hmsg
        rfl)
    (by intro a b c d; rfl)
    (by intro c s; rfl)
  exact ⟨h.1, h.2.1⟩

theorem build_label_ids_foldl (cfg : ChannelConfig) :
    ∀ (tags : List Nat) (init : List String),
      tags.foldl (fun acc tag_id =>
        match cfg.tag_label_map.lookup (toString tag_id) with
        | some linear_label_id => acc ++ [linear_label_id]
        | none => acc) init =
      init ++ tags.filterMap (fun tag_id => cfg.tag_label_map.lookup (toString tag_id)) := by
  intro tags
  induction tags with
  | nil => intro init; simp
  | cons t rest ih =>
    intro init
    simp only [List.foldl_cons, List.filterMap_cons]
    cases h : cfg.tag_label_map.lookup (toString t)
    · rw [ih]
    · rw [ih]
      simp

/-- Claim C9: the label list passed to issue creation is the channel's
primary label followed by the mapped label of each applied tag present in
the tag→label map, in applied-tag order; unmapped tags are simply dropped.
A successful forward sync passes exactly this list to `create_issue`. -/
theorem label_set_from_tags (env : D2LEnv) (db : Db) (cfg : ChannelConfig)
    (thread : GuildChannel) :
    build_label_ids cfg thread.applied_tags =
      cfg.linear_label_id :: thread.applied_tags.filterMap
        (fun tag_id => cfg.tag_label_map.lookup (toString tag_id)) ∧
    (get_mapping_by_discord_thread db (toString thread.id) = none →
     (sync_discord_to_linear env db cfg thread).res = .ok () →
     ∃ issue desc,
       (sync_discord_to_linear env db cfg thread).effects =
         (fetch_first_message_with_retry env thread.id).2 ++
           [Effect.createIssue cfg.linear_team_id thread.name desc
              (build_label_ids cfg thread.applied_tags),
            Effect.say thread.id (mk_confirmation issue)]) := by
  constructor
  · rw [build_label_ids, build_label_ids_foldl]
    rfl
  · intro hm hok
    cases hp : thread.parent_id with
    | none =>
      simp only [sync_discord_to_linear, hm, hp] at hok
      simp at hok
    | some parent_id =>
      simp only [sync_discord_to_linear, hm, hp] at hok ⊢
      obtain ⟨issue, heq⟩ := sync_create_and_post_ok env db cfg thread _ _ _ hok
      rw [heq]
      exact ⟨issue, _, rfl⟩

/-- Concrete instance of claim C9 (the spec scenario): primary label
"label-feature", tag map mapping tag 77 to "label-ux", applied tags
[77, 99] → labels ["label-feature", "label-ux"], and the created issue's
`createIssue` effect carries exactly that list. -/
theorem label_set_from_tags_witness :
    build_label_ids exTagCfg exTagThread.applied_tags = ["label-feature", "label-ux"] ∧
    ∃ issue desc,
      (sync_discord_to_linear exEnvOk emptyDb exTagCfg exTagThread).effects =
        (fetch_first_message_with_retry exEnvOk exTagThread.id).2 ++
          [Effect.createIssue exTagCfg.linear_team_id exTagThread.name desc
             (build_label_ids exTagCfg exTagThread.applied_tags),
           Effect.say exTagThread.id (mk_confirmation issue)] := by
  constructor
  · rw [(label_set_from_tags exEnvOk emptyDb exTagCfg exTagThread).1]
    decide
  · exact (label_set_from_tags exEnvOk emptyDb exTagCfg exTagThread).2 (by decide) (by rfl)

theorem build_attachment_links_foldl (env : D2LEnv) :
    ∀ (atts : List Attachment) (init : List String),
      atts.foldl (fun acc a =>
        match upload_attachment env a.url a.filename with
        | .ok asset_url => acc ++ ["![" ++ a.filename ++ "](" ++ asset_url ++ ")"]
        | .error _ => acc) init =
      init ++ atts.filterMap (fun a =>
        match upload_attachment env a.url a.filename with
        | .ok asset_url => some ("![" ++ a.filename ++ "](" ++ asset_url ++ ")")
        | .error _ => none) := by
  intro atts
  induction atts with
  | nil => intro init; simp
  | cons a rest ih =>
    intro init
    simp only [List.foldl_cons, List.filterMap_cons]
    cases h : upload_attachment env a.url a.filename
    · rw [ih]
    · rw [ih]
      simp

/-- Claim C8: attachment mirroring is best-effort.  Whatever the download,
upload-slot and upload results for the individual attachments are, forward
sync still succeeds and creates the issue, whose description is built from
the attachment-link list; and that list contains exactly one markdown link
per attachment whose upload chain succeeded, in order. -/
theorem attachment_best_effort (env : D2LEnv) (db : Db) (cfg : ChannelConfig)
    (thread : GuildChannel) (parent_id : Nat) (msg : Message)
    (more : List Message) (issue : LinearIssue) (say_id : Nat)
    (hm : get_mapping_by_discord_thread db (toString thread.id) = none)
    (hp : thread.parent_id = some parent_id)
    (hfirst : env.fetch_messages 0 = .ok (msg :: more))
    (hcr : ∀ a b c d, env.create_issue a b c d = .ok issue)
    (hsay : ∀ c s, env.say c s = .ok say_id) :
    (sync_discord_to_linear env db cfg thread).res = .ok () ∧
    (sync_discord_to_linear env db cfg thread).effects =
      [Effect.fetchMessages thread.id] ++
        [Effect.createIssue cfg.linear_team_id thread.name
           (mk_description msg.content (mk_thread_url cfg.guild_id parent_id thread.id)
             (build_attachment_links env msg.attachments))
           (build_label_ids cfg thread.applied_tags),
         Effect.say thread.id (mk_confirmation issue)] ∧
    build_attachment_links env msg.attachments =
      msg.attachments.filterMap (fun a =>
        match upload_attachment env a.url a.filename with
        | .ok asset_url => some ("![" ++ a.filename ++ "](" ++ asset_url ++ ")")
        | .error _ => none) := by
  have hf : fetch_first_message_with_retry env thread.id =
      (some msg, [Effect.fetchMessages thread.id]) := by
    unfold fetch_first_message_with_retry
    simp only [fetch_loop, hfirst]
    rfl
  have hsync : sync_discord_to_linear env db cfg thread =
      ⟨.ok (), create_mapping db (toString thread.id) issue.id issue.identifier
         cfg.channel_type,
       [Effect.fetchMessages thread.id] ++
         [Effect.createIssue cfg.linear_team_id thread.name
            (mk_description msg.content (mk_thread_url cfg.guild_id parent_id thread.id)
              (build_attachment_links env msg.attachments))
            (build_label_ids cfg thread.applied_tags),
          Effect.say thread.id (mk_confirmation issue)]⟩ := by
    simp only [sync_discord_to_linear, hm, hp, hf]
    unfold sync_create_and_post
    rw [hcr]
    dsimp only
    rw [hsay]
  refine ⟨?_, ?_, ?_⟩
  · rw [hsync]
  · rw [hsync]
  · rw [build_attachment_links, build_attachment_links_foldl]
    rfl

/-- Concrete instance of claim C8 (the spec scenario): of two attachments
the first fails to download; the sync still succeeds and the link list holds
exactly the second attachment's link. -/
theorem attachment_best_effort_witness :
    (sync_discord_to_linear exEnvAttach emptyDb exChannelCfg exAttThread).res = .ok () ∧
    build_attachment_links exEnvAttach exAttMsg.attachments =
      ["![a2.png](https://assets/a2.png)"] := by
  have h := attachment_best_effort exEnvAttach emptyDb exChannelCfg exAttThread 10
    exAttMsg [] exIssue2 0 (by decide) (by decide) (by rfl)
    (by intro a b c d; rfl) (by intro c s; rfl)
  refine ⟨h.1, ?_⟩
  rw [h.2.2]
  decide

theorem sync_create_and_post_preserves_backfill (env : D2LEnv) (db : Db)
    (cfg : ChannelConfig) (t : GuildChannel) (desc : String) (labels : List String)
    (fx : List Effect) :
    (sync_create_and_post env db cfg t desc labels fx).db.backfill_state =
      db.backfill_state := by
  unfold sync_create_and_post
  cases hc : env.create_issue cfg.linear_team_id t.name desc labels
  · rfl
  · rename_i issue
    dsimp only
    cases hs : env.say t.id (mk_confirmation issue)
    · simp [create_mapping]
    · simp [create_mapping]

theorem sync_preserves_backfill_state (env : D2LEnv) (db : Db) (cfg : ChannelConfig)
    (t : GuildChannel) :
    (sync_discord_to_linear env db cfg t).db.backfill_state = db.backfill_state := by
  cases hm : get_mapping_by_discord_thread db (toString t.id) with
  | some m => simp only [sync_discord_to_linear, hm]
  | none =>
    cases hp : t.parent_id with
    | none => simp only [sync_discord_to_linear, hm, hp]
    | some pid =>
      simp only [sync_discord_to_linear, hm, hp]
      apply sync_create_and_post_preserves_backfill

theorem find?_map_upsert (cs : String) (c : Bool) (l : Option String) :
    ∀ (xs : List BackfillState), xs.any (fun s => s.channel_id == cs) = true →
      (xs.map (fun s => if s.channel_id == cs then
          (⟨cs, c, l, ""⟩ : BackfillState) else s)).find?
        (fun s => s.channel_id == cs) = some ⟨cs, c, l, ""⟩ := by
  intro xs
  induction xs with
  | nil => intro h; simp at h
  | cons s t ih =>
    intro h
    cases hs : s.channel_id == cs
    · rw [List.any_cons, hs, Bool.false_or] at h
      rw [List.map_cons, if_neg (by simp [hs]),
        List.find?_cons_of_neg _ (by simp [hs])]
      exact ih h
    · rw [List.map_cons, if_pos hs,
        List.find?_cons_of_pos _ (by simp)]

theorem get_backfill_state_upsert_self (db : Db) (cs : String) (c : Bool)
    (l : Option String) :
    get_backfill_state (upsert_backfill_state db cs c l) cs = some ⟨cs, c, l, ""⟩ := by
  unfold get_backfill_state upsert_backfill_state
  by_cases h : db.backfill_state.any (fun s => s.channel_id == cs) = true
  · rw [if_pos h]
    dsimp only
    exact find?_map_upsert cs c l db.backfill_state h
  · rw [if_neg h]
    dsimp only
    have hnone : db.backfill_state.find? (fun s => s.channel_id == cs) = none := by
      rw [List.find?_eq_none]
      intro x hx hpx
      exact h (List.any_eq_true.mpr ⟨x, hx, hpx⟩)
    rw [List.find?_append, hnone]
    simp [List.find?]

/-- Claim C2 counterexample: channel 10 holds threads 1 (whose forward sync
persistently fails) and 2 (which syncs).  After one full run thread 1 is
still unmapped; the channel-level cursor had advanced to "2" — past the
failed thread — and the channel is marked completed with the run free of
fatal errors, so a second run does nothing at all: the failing thread is
not retried. -/
theorem backfill_retry_counterexample :
    get_mapping_by_discord_thread (run_backfill exBackfillEnv emptyDb exConfig).db "1" =
      none ∧
    get_backfill_state (backfill_channel exBackfillEnv emptyDb exConfig 10 7).db "10" =
      some ⟨"10", false, some "2", ""⟩ ∧
    get_backfill_state (run_backfill exBackfillEnv emptyDb exConfig).db "10" =
      some ⟨"10", true, none, ""⟩ ∧
    (run_backfill exBackfillEnv (run_backfill exBackfillEnv emptyDb exConfig).db
      exConfig).effects = [] := by
  refine ⟨?_, ?_, ?_, ?_⟩ <;> decide

/-- Claim C2 (amended): forward sync itself never touches the backfill
cursor (so a failing thread's own step leaves the cursor unchanged, though a
later successful thread may persist a cursor past it), and after
`backfill_channel` returns without a channel-level fatal error the channel is
marked completed=true — even when individual thread syncs failed — while a
channel-level error leaves the orchestrator's database untouched; hence a
persistently-failing thread is only retried while its channel remains
uncompleted, not on every future run. -/
theorem backfill_cursor_completion_amended :
    (∀ (env : D2LEnv) (db : Db) (cfg : ChannelConfig) (t : GuildChannel),
       (sync_discord_to_linear env db cfg t).db.backfill_state = db.backfill_state) ∧
    (∀ (env : BackfillEnv) (db : Db) (config : Config) (cfg : ChannelConfig),
       config.channels = [cfg] →
       (∀ st, get_backfill_state db (toString cfg.discord_channel_id) = some st →
          st.completed = false) →
       (∀ n, (backfill_channel env db config cfg.discord_channel_id
                cfg.guild_id).res = .ok n →
          get_backfill_state (run_backfill env db config).db
              (toString cfg.discord_channel_id) =
            some ⟨toString cfg.discord_channel_id, true, none, ""⟩) ∧
       (∀ e, (backfill_channel env db config cfg.discord_channel_id
                cfg.guild_id).res = .error e →
          (run_backfill env db config).db =
            (backfill_channel env db config cfg.discord_channel_id cfg.guild_id).db)) := by
  constructor
  · exact sync_preserves_backfill_state
  · intro env db config cfg hch hnc
    have hskip : (match get_backfill_state db (toString cfg.discord_channel_id) with
        | some state => state.completed
        | none => false) = false := by
      cases hst : get_backfill_state db (toString cfg.discord_channel_id)
      · rfl
      · rename_i st
        exact hnc st hst
    constructor
    · intro n hok
      unfold run_backfill run_backfill_loop
      rw [hch]
      dsimp only
      rw [hskip]
      simp only [Bool.false_eq_true, if_false]
      revert hok
      cases hr : (backfill_channel env db config cfg.discord_channel_id
          cfg.guild_id).res <;> intro hok
      · simp at hok
      · dsimp only
        exact get_backfill_state_upsert_self _ _ _ _
    · intro e herr
      unfold run_backfill run_backfill_loop
      rw [hch]
      dsimp only
      rw [hskip]
      simp only [Bool.false_eq_true, if_false]
      revert herr
      cases hr : (backfill_channel env db config cfg.discord_channel_id
          cfg.guild_id).res <;> intro herr
      · rfl
      · simp at herr

/-- Concrete instance of amended claim C2: forward sync of thread 1 leaves
the cursor table untouched, and the concrete failing-thread run still ends
with the channel marked completed. -/
theorem backfill_cursor_completion_amended_witness :
    (sync_discord_to_linear exEnvFail emptyDb exChannelCfg exT1).db.backfill_state =
      emptyDb.backfill_state ∧
    get_backfill_state (run_backfill exBackfillEnv emptyDb exConfig).db
        (toString exChannelCfg.discord_channel_id) =
      some ⟨toString exChannelCfg.discord_channel_id, true, none, ""⟩ := by
  constructor
  · exact backfill_cursor_completion_amended.1 exEnvFail emptyDb exChannelCfg exT1
  · exact (backfill_cursor_completion_amended.2 exBackfillEnv emptyDb exConfig exChannelCfg
      rfl (by intro st h; simp [get_backfill_state, emptyDb, List.find?] at h)).1 1 (by rfl)

theorem forwardSyncAttempts_nil : forwardSyncAttempts [] = [] := rfl

theorem forwardSyncAttempts_cons_fwd (n : Nat) (l : List Effect) :
    forwardSyncAttempts (Effect.forwardSync n :: l) = n :: forwardSyncAttempts l := by
  simp [forwardSyncAttempts, List.filterMap_cons]

theorem forwardSyncAttempts_cons_sleepMillis (n : Nat) (l : List Effect) :
    forwardSyncAttempts (Effect.sleepMillis n :: l) = forwardSyncAttempts l := by
  simp [forwardSyncAttempts, List.filterMap_cons]

theorem forwardSyncAttempts_append (a b : List Effect) :
    forwardSyncAttempts (a ++ b) = forwardSyncAttempts a ++ forwardSyncAttempts b := by
  simp [forwardSyncAttempts, List.filterMap_append]

theorem forwardSyncAttempts_fetch (env : D2LEnv) (cid : Nat) :
    forwardSyncAttempts (fetch_first_message_with_retry env cid).2 = [] := by
  rw [forwardSyncAttempts, List.filterMap_eq_nil_iff]
  intro e he
  rcases fetch_loop_effects_shape env cid 3 0 e he with h | h <;> subst h <;> rfl

theorem forwardSyncAttempts_create_post (env : D2LEnv) (db : Db) (cfg : ChannelConfig)
    (t : GuildChannel) (desc : String) (labels : List String) (fx : List Effect)
    (hfx : forwardSyncAttempts fx = []) :
    forwardSyncAttempts (sync_create_and_post env db cfg t desc labels fx).effects = [] := by
  unfold sync_create_and_post
  cases hc : env.create_issue cfg.linear_team_id t.name desc labels
  · exact hfx
  · rename_i issue
    dsimp only
    cases hs : env.say t.id (mk_confirmation issue)
    · rw [forwardSyncAttempts_append, hfx]
      rfl
    · rw [forwardSyncAttempts_append, hfx]
      rfl

theorem forwardSyncAttempts_sync (env : D2LEnv) (db : Db) (cfg : ChannelConfig)
    (t : GuildChannel) :
    forwardSyncAttempts (sync_discord_to_linear env db cfg t).effects = [] := by
  cases hm : get_mapping_by_discord_thread db (toString t.id) with
  | some m => simp only [sync_discord_to_linear, hm]; rfl
  | none =>
    cases hp : t.parent_id with
    | none => simp only [sync_discord_to_linear, hm, hp]; rfl
    | some pid =>
      simp only [sync_discord_to_linear, hm, hp]
      exact forwardSyncAttempts_create_post _ _ _ _ _ _ _
        (forwardSyncAttempts_fetch env t.id)

theorem get_mapping_create_mapping_other (db : Db) (tid i ident ty s : String)
    (hnone : get_mapping_by_discord_thread db s = none) (hne : s ≠ tid) :
    get_mapping_by_discord_thread (create_mapping db tid i ident ty) s = none := by
  simp only [get_mapping_by_discord_thread] at hnone
  simp only [get_mapping_by_discord_thread, create_mapping]
  rw [List.find?_append, hnone]
  simp only [Option.none_or]
  rw [List.find?_cons_of_neg _ (by simp [beq_iff_eq]; exact fun h => hne h.symm)]
  rfl

theorem get_mapping_other_after_create_post (env : D2LEnv) (db : Db) (cfg : ChannelConfig)
    (t : GuildChannel) (desc : String) (labels : List String) (fx : List Effect) (s : String)
    (hnone : get_mapping_by_discord_thread db s = none)
    (hne : s ≠ toString t.id) :
    get_mapping_by_discord_thread (sync_create_and_post env db cfg t desc labels fx).db s =
      none := by
  unfold sync_create_and_post
  cases hc : env.create_issue cfg.linear_team_id t.name desc labels
  · exact hnone
  · rename_i issue
    dsimp only
    cases hs : env.say t.id (mk_confirmation issue)
    · exact get_mapping_create_mapping_other db (toString t.id) issue.id issue.identifier
        cfg.channel_type s hnone hne
    · exact get_mapping_create_mapping_other db (toString t.id) issue.id issue.identifier
        cfg.channel_type s hnone hne

theorem get_mapping_other_after_sync (env : D2LEnv) (db : Db) (cfg : ChannelConfig)
    (t : GuildChannel) (s : String)
    (hnone : get_mapping_by_discord_thread db s = none)
    (hne : s ≠ toString t.id) :
    get_mapping_by_discord_thread (sync_discord_to_linear env db cfg t).db s = none := by
  cases hm : get_mapping_by_discord_thread db (toString t.id) with
  | some m => simp only [sync_discord_to_linear, hm]; exact hnone
  | none =>
    cases hp : t.parent_id with
    | none => simp only [sync_discord_to_linear, hm, hp]; exact hnone
    | some pid =>
      simp only [sync_discord_to_linear, hm, hp]
      exact get_mapping_other_after_create_post env db cfg t _ _ _ s hnone hne

theorem get_mapping_upsert_backfill (db : Db) (cs : String) (c : Bool) (l : Option String)
    (s : String) :
    get_mapping_by_discord_thread (upsert_backfill_state db cs c l) s =
      get_mapping_by_discord_thread db s := by
  unfold get_mapping_by_discord_thread upsert_backfill_state
  split <;> rfl

theorem backfill_loop_two_attempts (env : BackfillEnv) (db : Db) (cfg : ChannelConfig)
    (cs : String) (t2 t3 : GuildChannel) (synced : Nat)
    (hm2 : get_mapping_by_discord_thread db (toString t2.id) = none)
    (hm3 : get_mapping_by_discord_thread db (toString t3.id) = none)
    (hkey : toString t3.id ≠ toString t2.id) :
    forwardSyncAttempts (backfill_loop env db cfg cs [t2, t3] synced).effects =
      [t2.id, t3.id] := by
  simp only [backfill_loop, hm2]
  have hm3s : get_mapping_by_discord_thread
      (sync_discord_to_linear (env.syncEnv t2.id) db cfg t2).db (toString t3.id) = none :=
    get_mapping_other_after_sync _ db cfg t2 (toString t3.id) hm3 hkey
  cases hr2 : (sync_discord_to_linear (env.syncEnv t2.id) db cfg t2).res
  · dsimp only
    simp only [backfill_loop, hm3s]
    cases hr3 : (sync_discord_to_linear (env.syncEnv t3.id)
        (sync_discord_to_linear (env.syncEnv t2.id) db cfg t2).db cfg t3).res <;>
      simp [forwardSyncAttempts_cons_fwd, forwardSyncAttempts_append,
        forwardSyncAttempts_sync, forwardSyncAttempts_cons_sleepMillis,
        forwardSyncAttempts_nil]
  · dsimp only
    have hm3u : get_mapping_by_discord_thread
        (upsert_backfill_state (sync_discord_to_linear (env.syncEnv t2.id) db cfg t2).db
          cs false (some (toString t2.id))) (toString t3.id) = none := by
      rw [get_mapping_upsert_backfill]
      exact hm3s
    simp only [backfill_loop, hm3u]
    cases hr3 : (sync_discord_to_linear (env.syncEnv t3.id)
        (upsert_backfill_state (sync_discord_to_linear (env.syncEnv t2.id) db cfg t2).db
          cs false (some (toString t2.id))) cfg t3).res <;>
      simp [forwardSyncAttempts_cons_fwd, forwardSyncAttempts_append,
        forwardSyncAttempts_sync, forwardSyncAttempts_cons_sleepMillis,
        forwardSyncAttempts_nil]

/-- Claim C6: with threads T1 < T2 < T3 under the channel, T1 already mapped
and the persisted cursor parsing to T1's id (channel not completed), a fresh
`backfill_channel` run — whatever the per-thread sync outcomes — invokes
forward sync exactly for T2 then T3, and never for T1: the fetched list is
sorted by id, everything at or below the cursor is dropped, and unmapped
threads above it are attempted in order. -/
theorem backfill_resume_skips_synced (env : BackfillEnv) (db : Db) (config : Config)
    (cfg : ChannelConfig) (channel_id guild_id : Nat) (t1 t2 t3 : GuildChannel)
    (st : BackfillState) (cursor : String) (m1 : SyncMapping)
    (h12 : t1.id < t2.id) (h23 : t2.id < t3.id)
    (hp1 : t1.parent_id = some channel_id) (hp2 : t2.parent_id = some channel_id)
    (hp3 : t3.parent_id = some channel_id)
    (hbs : get_backfill_state db (toString channel_id) = some st)
    (hlast : st.last_thread_id = some cursor)
    (hcursor : (parseNat cursor).getD 0 = t1.id)
    (henv : env.active_threads guild_id = .ok [t2, t1, t3])
    (hcfg : config.channel_config channel_id = some cfg)
    (_hm1 : get_mapping_by_discord_thread db (toString t1.id) = some m1)
    (hm2 : get_mapping_by_discord_thread db (toString t2.id) = none)
    (hm3 : get_mapping_by_discord_thread db (toString t3.id) = none)
    (hkey : toString t3.id ≠ toString t2.id) :
    forwardSyncAttempts (backfill_channel env db config channel_id guild_id).effects =
      [t2.id, t3.id] ∧
    t1.id ∉ forwardSyncAttempts
      (backfill_channel env db config channel_id guild_id).effects := by
  have hs1 : sortByIdInsert ([] : List GuildChannel) t2 = [t2] := rfl
  have hs2 : sortByIdInsert [t2] t1 = [t1, t2] := by
    simp only [sortByIdInsert]
    rw [if_neg (Nat.not_le.mpr h12)]
  have hs3 : sortByIdInsert [t1, t2] t3 = [t1, t2, t3] := by
    simp only [sortByIdInsert]
    rw [if_pos (Nat.le_of_lt (h12.trans h23)), if_pos (Nat.le_of_lt h23)]
  have hsorted : sortById [t2, t1, t3] = [t1, t2, t3] := by
    simp only [sortById, List.foldl, hs1, hs2, hs3]
  have hlist : backfill_channel env db config channel_id guild_id =
      backfill_loop env db cfg (toString channel_id) [t2, t3] 0 := by
    simp only [backfill_channel, hbs, hlast, henv, hcfg]
    simp only [List.filter_cons, List.filter_nil, hp1, hp2, hp3, beq_self_eq_true,
      if_true]
    rw [hsorted, hcursor]
    simp only [List.filter_cons, List.filter_nil, decide_eq_true_eq, Nat.lt_irrefl,
      if_false, h12, if_true, h12.trans h23]
  rw [hlist, backfill_loop_two_attempts env db cfg (toString channel_id) t2 t3 0
    hm2 hm3 hkey]
  refine ⟨rfl, ?_⟩
  simp only [List.mem_cons, List.not_mem_nil, or_false]
  push_neg
  exact ⟨Nat.ne_of_lt h12, Nat.ne_of_lt (h12.trans h23)⟩

/-- Concrete instance of claim C6: threads 1 < 2 < 3 under channel 10 with
thread 1 mapped and cursor "1": the resume run attempts forward sync for
exactly threads 2 and 3, never thread 1. -/
theorem backfill_resume_skips_synced_witness :
    forwardSyncAttempts (backfill_channel exResumeEnv exResumeDb exConfig 10 7).effects =
      [2, 3] ∧
    1 ∉ forwardSyncAttempts
      (backfill_channel exResumeEnv exResumeDb exConfig 10 7).effects := by
  exact backfill_resume_skips_synced exResumeEnv exResumeDb exConfig exChannelCfg 10 7
    exT1 exT2 exT3 ⟨"10", false, some "1", ""⟩ "1" ⟨0, "1", "iss-1", "ABC-1", "feature", ""⟩
    (by decide) (by decide) rfl rfl rfl (by decide) rfl (by decide) rfl (by decide)
    (by decide) (by decide) (by decide) (by decide)

end Bot
